import Mathlib

/-!
Shallow embedding of the mobile-healthhub cloud function
(`src/cloud-function/validators.py` and `src/cloud-function/main.py`):
JSON values as Python's json module yields them, the field and batch
validators, the MERGE-based upsert engine, and the HTTP endpoint, together
with theorems settling the specification's claims about them.
-/

namespace HealthHub

/-- A JSON value as Python's json module produces it: `None`, `bool`, `int`,
`float` (modelled exactly, as a rational), `str`, `list`, `dict`.  Python's
`bool` is a subclass of `int`; the coercion helpers below encode that. -/
inductive JVal where
  | vnull : JVal
  | vbool : Bool → JVal
  | vint : Int → JVal
  | vfloat : ℚ → JVal
  | vstr : String → JVal
  | varr : List JVal → JVal
  | vobj : List (String × JVal) → JVal
deriving Repr

mutual

/-- Structural equality of JSON values (the equality the SQL store applies
to key columns in the MERGE condition). -/
def JVal.beq : JVal → JVal → Bool
  | .vnull, .vnull => true
  | .vbool a, .vbool b => a == b
  | .vint a, .vint b => a == b
  | .vfloat a, .vfloat b => a == b
  | .vstr a, .vstr b => a == b
  | .varr as, .varr bs => beqArr as bs
  | .vobj fs, .vobj gs => beqFields fs gs
  | _, _ => false

def beqArr : List JVal → List JVal → Bool
  | [], [] => true
  | a :: as, b :: bs => JVal.beq a b && beqArr as bs
  | _, _ => false

def beqFields : List (String × JVal) → List (String × JVal) → Bool
  | [], [] => true
  | (k, v) :: fs, (l, w) :: gs => k == l && (JVal.beq v w && beqFields fs gs)
  | _, _ => false

end

/-- `x is None`. -/
def isNull : JVal → Bool
  | .vnull => true
  | _ => false

/-- A Python dict with string keys, as an association list (first binding
wins; genuine dicts have no repeated key). -/
abbrev Dict := List (String × JVal)

/-- `d.get(key)` of a Python dict, before the `None` default: the stored
value if the key is present. -/
def dlookup : Dict → String → Option JVal
  | [], _ => none
  | (k, v) :: rest, key => if k = key then some v else dlookup rest key

/-- `d.get(key)`: absent keys give `None`. -/
def dget (m : Dict) (key : String) : JVal := (dlookup m key).getD JVal.vnull

/-- `key in d`. -/
def hasKey (m : Dict) (key : String) : Bool := (dlookup m key).isSome

/-- Python truthiness: `not x` holds exactly on these values. -/
def isFalsy : JVal → Bool
  | .vnull => true
  | .vbool b => !b
  | .vint n => n == 0
  | .vfloat q => q == 0
  | .vstr s => s.isEmpty
  | .varr xs => xs.isEmpty
  | .vobj fs => fs.isEmpty

/-- The rational a value stands for when `isinstance(x, (int, float))`
holds (Python bools count as ints); `none` when it does not hold. -/
def asNum : JVal → Option ℚ
  | .vbool b => some (if b then 1 else 0)
  | .vint n => some (n : ℚ)
  | .vfloat q => some q
  | _ => none

/-- The integer a value stands for when `isinstance(x, int)` holds (bool
included, float excluded); `none` when it does not hold. -/
def asInt : JVal → Option Int
  | .vbool b => some (if b then 1 else 0)
  | .vint n => some n
  | _ => none

/-- `isinstance(x, bool)`. -/
def isBool : JVal → Bool
  | .vbool _ => true
  | _ => false

/-- One optional numeric field block of `validate_metric`
(validators.py lines 43-82, 135-139): the field is checked only when the
looked-up value is not `None` (absent keys look up as `None`, matching the
`key in metric and metric[key] is not None` guard); a type violation
precedes the range check. -/
def numFieldErrs (v : JVal) (lo hi : ℚ) (tmsg rmsg : String) : List String :=
  if isNull v then []
  else match asNum v with
    | none => [tmsg]
    | some q => if lo ≤ q ∧ q ≤ hi then [] else [rmsg]

/-- One optional numeric lower-bounded field block (calories, distance:
validators.py lines 93-104): negative values violate. -/
def numMinErrs (v : JVal) (tmsg rmsg : String) : List String :=
  if isNull v then []
  else match asNum v with
    | none => [tmsg]
    | some q => if q < 0 then [rmsg] else []

/-- One optional integer range field block (sleep, stress, mai:
validators.py lines 107-132, 142-146). -/
def intFieldErrs (v : JVal) (lo hi : Int) (tmsg rmsg : String) : List String :=
  if isNull v then []
  else match asInt v with
    | none => [tmsg]
    | some n => if lo ≤ n ∧ n ≤ hi then [] else [rmsg]

/-- The `steps` block (validators.py lines 86-90): integer, non-negative. -/
def intMinErrs (v : JVal) (tmsg rmsg : String) : List String :=
  if isNull v then []
  else match asInt v with
    | none => [tmsg]
    | some n => if n < 0 then [rmsg] else []

/-- The timestamp check (validators.py lines 33-35):
`timestamp is None or timestamp <= 0` appends the violation; when the
value is neither `None` nor numeric, the comparison `timestamp <= 0`
raises `TypeError`, encoded as `none`. -/
def tsErrs (v : JVal) (msg : String) : Option (List String) :=
  if isNull v then some [msg]
  else match asNum v with
    | none => none
    | some q => some (if q ≤ 0 then [msg] else [])

/-- `validate_metric(metric, index)` (validators.py lines 13-153).
Returns `some errors` when the Python function returns, `none` when it
raises (which happens exactly on a present, non-null, non-numeric
timestamp). Violations are collected in source order. -/
def validate_metric (metric : Dict) (index : Nat) : Option (List String) :=
  let e1 := if isFalsy (dget metric "userId") then [s!"Record {index}: userId is required"] else []
  let e2 := if isFalsy (dget metric "deviceId") then [s!"Record {index}: deviceId is required"] else []
  match tsErrs (dget metric "timestamp") s!"Record {index}: invalid timestamp (must be positive)" with
  | none => none
  | some e3 =>
    let e4 := if isFalsy (dget metric "recordHash") then [s!"Record {index}: recordHash is required for deduplication"] else []
    let e5 := numFieldErrs (dget metric "heartRate") 30 220
      s!"Record {index}: heartRate must be numeric" s!"Record {index}: heartRate out of range (30-220 bpm)"
    let e6 := numFieldErrs (dget metric "bpSystolic") 60 280
      s!"Record {index}: bpSystolic must be numeric" s!"Record {index}: bpSystolic out of range (60-280 mmHg)"
    let e7 := numFieldErrs (dget metric "bpDiastolic") 30 150
      s!"Record {index}: bpDiastolic must be numeric" s!"Record {index}: bpDiastolic out of range (30-150 mmHg)"
    let e8 := numFieldErrs (dget metric "spO2") 70 100
      s!"Record {index}: spO2 must be numeric" s!"Record {index}: spO2 out of range (70-100%)"
    let e9 := numFieldErrs (dget metric "temperature") 35 41
      s!"Record {index}: temperature must be numeric" s!"Record {index}: temperature out of range (35.0-41.0°C)"
    let e10 := numFieldErrs (dget metric "bloodGlucose") 50 500
      s!"Record {index}: bloodGlucose must be numeric" s!"Record {index}: bloodGlucose out of range (50-500)"
    let e11 := intMinErrs (dget metric "steps")
      s!"Record {index}: steps must be integer" s!"Record {index}: steps cannot be negative"
    let e12 := numMinErrs (dget metric "calories")
      s!"Record {index}: calories must be numeric" s!"Record {index}: calories cannot be negative"
    let e13 := numMinErrs (dget metric "distance")
      s!"Record {index}: distance must be numeric" s!"Record {index}: distance cannot be negative"
    let e14 := intFieldErrs (dget metric "totalSleep") 0 1440
      s!"Record {index}: totalSleep must be integer" s!"Record {index}: totalSleep out of range (0-1440 minutes)"
    let e15 := intFieldErrs (dget metric "deepSleep") 0 1440
      s!"Record {index}: deepSleep must be integer" s!"Record {index}: deepSleep out of range (0-1440 minutes)"
    let e16 := intFieldErrs (dget metric "lightSleep") 0 1440
      s!"Record {index}: lightSleep must be integer" s!"Record {index}: lightSleep out of range (0-1440 minutes)"
    let e17 := intFieldErrs (dget metric "stress") 0 100
      s!"Record {index}: stress must be integer" s!"Record {index}: stress out of range (0-100)"
    let e18 := numFieldErrs (dget metric "met") 0 20
      s!"Record {index}: met must be numeric" s!"Record {index}: met out of range (0.0-20.0)"
    let e19 := intFieldErrs (dget metric "mai") 0 100
      s!"Record {index}: mai must be integer" s!"Record {index}: mai out of range (0-100)"
    let e20 := if hasKey metric "isWearing" && !(isBool (dget metric "isWearing"))
      then [s!"Record {index}: isWearing must be boolean"] else []
    some (e1 ++ e2 ++ e3 ++ e4 ++ e5 ++ e6 ++ e7 ++ e8 ++ e9 ++ e10 ++ e11
      ++ e12 ++ e13 ++ e14 ++ e15 ++ e16 ++ e17 ++ e18 ++ e19 ++ e20)

/-- The non-object element violation text (validators.py line 178). -/
def nonObjMsg (i : Nat) : String := s!"Record {i}: must be a JSON object"

/-- The oversize-batch violation text (validators.py line 173). -/
def oversizeMsg (n : Nat) : String := s!"batch size {n} exceeds maximum of 500"

/-- The element loop of `validate_batch` (validators.py lines 175-182),
starting at index `i`: a non-dict element contributes its single message and
the loop continues; a dict element contributes `validate_metric`'s list.
`none` when `validate_metric` raises on some element. -/
def batchLoop : List JVal → Nat → Option (List String)
  | [], _ => some []
  | m :: rest, i =>
    match m with
    | JVal.vobj d =>
      match validate_metric d i with
      | none => none
      | some errs => (batchLoop rest (i + 1)).map (fun more => errs ++ more)
    | _ => (batchLoop rest (i + 1)).map (fun more => nonObjMsg i :: more)

/-- `validate_batch(metrics)` (validators.py lines 156-185); `none` when it
raises (propagated from `validate_metric`). -/
def validate_batch (metrics : JVal) : Option (Bool × List String) :=
  match metrics with
  | JVal.varr ms =>
    if ms.length = 0 then some (false, ["metrics array cannot be empty"])
    else if ms.length > 500 then some (false, [oversizeMsg ms.length])
    else (batchLoop ms 0).map (fun errs => (errs.isEmpty, errs))
  | _ => some (false, ["metrics must be an array"])

/-- Specification-side: one batch element's contribution to the violation
list — the field validator's list for a dict, the single non-object message
otherwise. -/
def elemErrs (m : JVal) (k : Nat) : Option (List String) :=
  match m with
  | JVal.vobj d => validate_metric d k
  | _ => some [nonObjMsg k]

/-- Specification-side: the concatenation of the per-record violation lists
of a batch of dict records, indices from `k`; `none` when some record's
validation raises. -/
def concatErrs : List Dict → Nat → Option (List String)
  | [], _ => some []
  | d :: rest, k =>
    match validate_metric d k with
    | none => none
    | some errs => (concatErrs rest (k + 1)).map (fun more => errs ++ more)

/-- The optional fields of the typed-range table that the validator guards
with `key in metric and metric[key] is not None` — every one except
`isWearing`. -/
def nullSkippedFields : List String :=
  ["heartRate", "bpSystolic", "bpDiastolic", "spO2", "temperature",
   "bloodGlucose", "steps", "calories", "distance", "totalSleep",
   "deepSleep", "lightSleep", "stress", "met", "mai"]

/-- The `HealthMetric` object built from a raw record (main.py lines 66-90)
and shipped as the MERGE parameters (lines 132-153): every column value is
the raw JSON value `metric.get(...)` returns (the store receives it as-is),
except the timestamp, which is `datetime.utcfromtimestamp(ms / 1000.0)`,
modelled exactly as the rational number of epoch seconds, and `is_wearing`,
whose `.get` default is `True`. -/
structure HMRow where
  user_id : JVal
  device_id : JVal
  timestamp : ℚ
  heart_rate : JVal
  bp_systolic : JVal
  bp_diastolic : JVal
  spo2 : JVal
  steps : JVal
  calories : JVal
  distance : JVal
  temperature : JVal
  blood_glucose : JVal
  total_sleep : JVal
  deep_sleep : JVal
  light_sleep : JVal
  stress : JVal
  met : JVal
  mai : JVal
  is_wearing : JVal
  record_hash : JVal
deriving Repr

/-- Lines 66-90 of main.py: building the `HealthMetric` for one raw record.
`none` encodes the exceptions this code raises — `metric['timestamp']` on a
non-dict or without the key, or `metric['timestamp'] / 1000.0` on a
non-numeric value — which the per-record handler catches. -/
def buildM (m : JVal) : Option HMRow :=
  match m with
  | JVal.vobj d =>
    match dlookup d "timestamp" with
    | none => none
    | some tv =>
      match asNum tv with
      | none => none
      | some q =>
        some {
          user_id := dget d "userId"
          device_id := dget d "deviceId"
          timestamp := q / 1000
          heart_rate := dget d "heartRate"
          bp_systolic := dget d "bpSystolic"
          bp_diastolic := dget d "bpDiastolic"
          spo2 := dget d "spO2"
          steps := dget d "steps"
          calories := dget d "calories"
          distance := dget d "distance"
          temperature := dget d "temperature"
          blood_glucose := dget d "bloodGlucose"
          total_sleep := dget d "totalSleep"
          deep_sleep := dget d "deepSleep"
          light_sleep := dget d "lightSleep"
          stress := dget d "stress"
          met := dget d "met"
          mai := dget d "mai"
          is_wearing := (dlookup d "isWearing").getD (JVal.vbool true)
          record_hash := dget d "recordHash" }
  | _ => none

/-- One row of the `health_data` table (models.py): the natural-key and
mutable columns of `HMRow`, plus the store-assigned autoincrement surrogate
id and the server-assigned `CreatedAt`. -/
structure StoreRow where
  id : Nat
  data : HMRow
  createdAt : Nat
deriving Repr

/-- The MERGE `ON` condition (main.py lines 98-101): equality on
`(UserId, DeviceId, Timestamp, RecordHash)`. -/
def keyMatch (a b : HMRow) : Bool :=
  JVal.beq a.user_id b.user_id && (JVal.beq a.device_id b.device_id
    && (decide (a.timestamp = b.timestamp) && JVal.beq a.record_hash b.record_hash))

/-- The MERGE `WHEN MATCHED THEN UPDATE SET` list (main.py lines 102-119):
the sixteen mutable columns take the incoming values; the key columns, the
surrogate id and `CreatedAt` are untouched. -/
def updateMut (old new : HMRow) : HMRow :=
  { old with
    heart_rate := new.heart_rate
    bp_systolic := new.bp_systolic
    bp_diastolic := new.bp_diastolic
    spo2 := new.spo2
    steps := new.steps
    calories := new.calories
    distance := new.distance
    temperature := new.temperature
    blood_glucose := new.blood_glucose
    total_sleep := new.total_sleep
    deep_sleep := new.deep_sleep
    light_sleep := new.light_sleep
    stress := new.stress
    met := new.met
    mai := new.mai
    is_wearing := new.is_wearing }

/-- The transactional store: the committed/working rows and the next
autoincrement surrogate id. -/
structure DB where
  rows : List StoreRow
  nextId : Nat
deriving Repr

/-- One execution of the MERGE statement (main.py lines 93-155) against the
working state at server time `now`: every row matching the natural key is
updated in place; when none matches, a new row is inserted with a fresh
surrogate id and `CreatedAt := now`. -/
def mergeDB (now : Nat) (db : DB) (hm : HMRow) : DB :=
  if db.rows.any (fun r => keyMatch r.data hm) then
    ⟨db.rows.map (fun r => if keyMatch r.data hm then ⟨r.id, updateMut r.data hm, r.createdAt⟩ else r), db.nextId⟩
  else
    ⟨db.rows ++ [⟨db.nextId, hm, now⟩], db.nextId + 1⟩

/-- Stand-in for the Python `str(e)` text of the exception raised while
converting `metric['timestamp']` (a `KeyError` or `TypeError`); the claims
never depend on the exact wording, only on the `"Record {i}: "` framing
around it. -/
def tsConvErrMsg : String := "timestamp conversion error"

/-- The per-record loop of `insert_or_update_metrics` (main.py lines
63-163): `i` is the running index, `(db, ins, fl, errs)` the working store
and the bookkeeping accumulators.  A failure — the timestamp conversion
raising, or the store rejecting the record (`storeErr i = some message`) —
is caught locally: the failed count grows, `"Record {i}: {message}"` is
appended, and the loop continues. -/
def upsertLoop (storeErr : Nat → Option String) (now : Nat) :
    List JVal → Nat → DB → Nat → Nat → List String → DB × Nat × Nat × List String
  | [], _, db, ins, fl, errs => (db, ins, fl, errs)
  | m :: rest, i, db, ins, fl, errs =>
    match buildM m with
    | none => upsertLoop storeErr now rest (i + 1) db ins (fl + 1)
        (errs ++ [s!"Record {i}: {tsConvErrMsg}"])
    | some hm =>
      match storeErr i with
      | some em => upsertLoop storeErr now rest (i + 1) db ins (fl + 1)
          (errs ++ [s!"Record {i}: {em}"])
      | none => upsertLoop storeErr now rest (i + 1) (mergeDB now db hm) (ins + 1) fl errs

/-- The result dictionary of `insert_or_update_metrics` (main.py lines
169-174). -/
structure UpsertResult where
  success : Bool
  inserted : Nat
  failed : Nat
  errors : List String
deriving Repr, DecidableEq

/-- `insert_or_update_metrics(session, metrics, correlation_id)` (main.py
lines 46-182).  The store faults are environment parameters: `storeErr i`
is the message of the exception `session.execute` raises on record `i` (if
any), `commitErr` the message of the exception `session.commit()` raises
(if any).  On commit failure the transaction is rolled back — the committed
store stays `db` — and the function re-raises
`Exception("Batch insert failed: " + str(e))`, encoded as `Except.error`;
otherwise the working rows are committed and the result carries
`success = (failed == 0)` and the first 5 error messages. -/
def insert_or_update_metrics (storeErr : Nat → Option String)
    (commitErr : Option String) (now : Nat) (db : DB) (metrics : List JVal) :
    Except String UpsertResult × DB :=
  match upsertLoop storeErr now metrics 0 db 0 0 [] with
  | (work, ins, fl, errs) =>
    match commitErr with
    | some d => (Except.error s!"Batch insert failed: {d}", db)
    | none => (Except.ok ⟨fl == 0, ins, fl, errs.take 5⟩, work)

/-- The elements of a list paired with their `enumerate` indices starting
at `k` (specification-side helper for describing the loop). -/
def idxFrom : List JVal → Nat → List (Nat × JVal)
  | [], _ => []
  | m :: rest, k => (k, m) :: idxFrom rest (k + 1)

/-- Specification-side description of one record's fate: `some message`
when record `m` at index `i` fails (conversion error first, then the store
fault), `none` when it is persisted. -/
def recordOutcome (storeErr : Nat → Option String) (i : Nat) (m : JVal) :
    Option String :=
  match buildM m with
  | none => some s!"Record {i}: {tsConvErrMsg}"
  | some _ =>
    match storeErr i with
    | some em => some s!"Record {i}: {em}"
    | none => none

/-- The failure messages of a batch, in input order, indices from `k`. -/
def failMsgs (storeErr : Nat → Option String) (ms : List JVal) (k : Nat) :
    List String :=
  (idxFrom ms k).filterMap (fun p => recordOutcome storeErr p.1 p.2)

/-- The normalized rows of the records that are persisted, in input order,
indices from `k`. -/
def okRows (storeErr : Nat → Option String) (ms : List JVal) (k : Nat) :
    List HMRow :=
  (idxFrom ms k).filterMap (fun p =>
    match buildM p.2 with
    | some hm => match storeErr p.1 with | none => some hm | some _ => none
    | none => none)

/-- An HTTP response: the JSON body (an object) and the status code. -/
structure HttpResp where
  body : List (String × JVal)
  status : Nat
deriving Repr

/-- The success-path response body (main.py lines 289-298): the `errors`
key is added only when the result's error list is non-empty. -/
def mkSuccessBody (r : UpsertResult) (durationMs : Int) (corrId : JVal) :
    List (String × JVal) :=
  [("success", JVal.vbool r.success), ("syncedCount", JVal.vint r.inserted),
   ("failedCount", JVal.vint r.failed), ("durationMs", JVal.vint durationMs),
   ("correlationId", corrId)]
  ++ (if r.errors.isEmpty then [] else [("errors", JVal.varr (r.errors.map JVal.vstr))])

/-- The status-code choice (main.py lines 300-309). -/
def upstatus (r : UpsertResult) : Nat :=
  if r.success then 200 else if 0 < r.inserted then 207 else 500

/-- Stand-in for `str(e)` of the exception `validate_batch` lets escape
(a `TypeError` from a non-numeric timestamp comparison). -/
def valRaiseMsg : String := "unorderable types"

/-- Stand-in for `str(e)` of the `AttributeError` raised by
`data.get(...)` when the parsed body is not an object. -/
def attrErrMsg : String := "no attribute get"

/-- `uploadHealthMetrics(request)` (main.py lines 186-322), from the parse
step on (the CORS preflight is excluded glue).  `reqBody` is the parsed
JSON body (`none` when `request.get_json()` raises), `autoId` the generated
correlation id, `durationMs` the measured wall-clock duration, and
`sessionErr`/`storeErr`/`commitErr` the store-boundary faults as in
`insert_or_update_metrics`.  Returns the response and the committed
store. -/
def uploadHealthMetrics (reqBody : Option JVal) (autoId : String)
    (durationMs : Int) (sessionErr : Option String)
    (storeErr : Nat → Option String) (commitErr : Option String)
    (now : Nat) (db : DB) : HttpResp × DB :=
  match reqBody with
  | none => (⟨[("error", JVal.vstr "Invalid JSON format")], 400⟩, db)
  | some data =>
    if isFalsy data then
      (⟨[("error", JVal.vstr "Invalid request: empty body")], 400⟩, db)
    else
      match data with
      | JVal.vobj d =>
        let metrics := (dlookup d "metrics").getD (JVal.varr [])
        let corrId := (dlookup d "correlationId").getD (JVal.vstr autoId)
        match validate_batch metrics with
        | none =>
          (⟨[("error", JVal.vstr "Internal server error"),
             ("message", JVal.vstr valRaiseMsg), ("correlationId", corrId)], 500⟩, db)
        | some (false, verrs) =>
          (⟨[("error", JVal.vstr "Validation failed"),
             ("details", JVal.varr ((verrs.take 10).map JVal.vstr))], 400⟩, db)
        | some (true, _) =>
          match sessionErr with
          | some s =>
            (⟨[("error", JVal.vstr "Database insertion failed"),
               ("message", JVal.vstr s)], 500⟩, db)
          | none =>
            match metrics with
            | JVal.varr ms =>
              match insert_or_update_metrics storeErr commitErr now db ms with
              | (Except.error emsg, db2) =>
                (⟨[("error", JVal.vstr "Database insertion failed"),
                   ("message", JVal.vstr emsg)], 500⟩, db2)
              | (Except.ok r, db2) =>
                (⟨mkSuccessBody r durationMs corrId, upstatus r⟩, db2)
            | _ =>
              (⟨[("error", JVal.vstr "Internal server error"),
                 ("message", JVal.vstr attrErrMsg), ("correlationId", corrId)], 500⟩, db)
      | _ =>
        (⟨[("error", JVal.vstr "Internal server error"),
           ("message", JVal.vstr attrErrMsg), ("correlationId", JVal.vnull)], 500⟩, db)

/-- A concrete valid raw record, used by the witnesses. -/
def rec0 : Dict := [("userId", JVal.vstr "u1"), ("deviceId", JVal.vstr "d1"),
  ("timestamp", JVal.vint 1000), ("recordHash", JVal.vstr "h1"),
  ("heartRate", JVal.vint 72)]

/-- `rec0` as a batch element. -/
def m0 : JVal := JVal.vobj rec0

/-- A concrete record with an out-of-range heart rate, used by the
witnesses. -/
def recBad : Dict := [("userId", JVal.vstr "u1"), ("deviceId", JVal.vstr "d1"),
  ("timestamp", JVal.vint 1000), ("recordHash", JVal.vstr "h1"),
  ("heartRate", JVal.vint 500)]

/-- The normalized row `buildM` produces from `rec0`. -/
def hm0 : HMRow where
  user_id := JVal.vstr "u1"
  device_id := JVal.vstr "d1"
  timestamp := ((1000 : Int) : ℚ) / 1000
  heart_rate := JVal.vint 72
  bp_systolic := JVal.vnull
  bp_diastolic := JVal.vnull
  spo2 := JVal.vnull
  steps := JVal.vnull
  calories := JVal.vnull
  distance := JVal.vnull
  temperature := JVal.vnull
  blood_glucose := JVal.vnull
  total_sleep := JVal.vnull
  deep_sleep := JVal.vnull
  light_sleep := JVal.vnull
  stress := JVal.vnull
  met := JVal.vnull
  mai := JVal.vnull
  is_wearing := JVal.vbool true
  record_hash := JVal.vstr "h1"

mutual

/-- `JVal.beq` is reflexive. -/
theorem JVal.beq_rfl : (a : JVal) → JVal.beq a a = true
  | .vnull => by simp [JVal.beq]
  | .vbool b => by simp [JVal.beq]
  | .vint n => by simp [JVal.beq]
  | .vfloat q => by simp [JVal.beq]
  | .vstr s => by simp [JVal.beq]
  | .varr as => by simp [JVal.beq]; exact beqArr_rfl as
  | .vobj fs => by simp [JVal.beq]; exact beqFields_rfl fs

theorem beqArr_rfl : (as : List JVal) → beqArr as as = true
  | [] => by simp [beqArr]
  | a :: as => by simp [beqArr]; exact ⟨JVal.beq_rfl a, beqArr_rfl as⟩

theorem beqFields_rfl : (fs : List (String × JVal)) → beqFields fs fs = true
  | [] => by simp [beqFields]
  | (k, v) :: fs => by simp [beqFields]; exact ⟨JVal.beq_rfl v, beqFields_rfl fs⟩

end

/-- The MERGE key condition is reflexive. -/
theorem keyMatch_rfl (a : HMRow) : keyMatch a a = true := by
  simp [keyMatch, JVal.beq_rfl]

/-- Updating a row with its own values leaves it unchanged. -/
theorem updateMut_self (a : HMRow) : updateMut a a = a := rfl

theorem failMsgs_nil (storeErr : Nat → Option String) (k : Nat) :
    failMsgs storeErr [] k = [] := rfl

theorem okRows_nil (storeErr : Nat → Option String) (k : Nat) :
    okRows storeErr [] k = [] := rfl

theorem failMsgs_cons_fail {storeErr : Nat → Option String} {k : Nat} {m : JVal}
    {msg : String} (ms : List JVal) (h : recordOutcome storeErr k m = some msg) :
    failMsgs storeErr (m :: ms) k = msg :: failMsgs storeErr ms (k + 1) := by
  simp [failMsgs, idxFrom, List.filterMap_cons, h]

theorem failMsgs_cons_ok {storeErr : Nat → Option String} {k : Nat} {m : JVal}
    (ms : List JVal) (h : recordOutcome storeErr k m = none) :
    failMsgs storeErr (m :: ms) k = failMsgs storeErr ms (k + 1) := by
  simp [failMsgs, idxFrom, List.filterMap_cons, h]

theorem okRows_cons_ok {storeErr : Nat → Option String} {k : Nat} {m : JVal}
    {hm : HMRow} (ms : List JVal) (hb : buildM m = some hm) (hs : storeErr k = none) :
    okRows storeErr (m :: ms) k = hm :: okRows storeErr ms (k + 1) := by
  simp [okRows, idxFrom, List.filterMap_cons, hb, hs]

theorem okRows_cons_buildfail {storeErr : Nat → Option String} {k : Nat} {m : JVal}
    (ms : List JVal) (hb : buildM m = none) :
    okRows storeErr (m :: ms) k = okRows storeErr ms (k + 1) := by
  simp [okRows, idxFrom, List.filterMap_cons, hb]

theorem okRows_cons_storefail {storeErr : Nat → Option String} {k : Nat} {m : JVal}
    {hm : HMRow} {em : String} (ms : List JVal) (hb : buildM m = some hm)
    (hs : storeErr k = some em) :
    okRows storeErr (m :: ms) k = okRows storeErr ms (k + 1) := by
  simp [okRows, idxFrom, List.filterMap_cons, hb, hs]

/-- The per-record loop, described by the specification-side functions:
the working store accumulates the merges of the persisted records, the
counters accumulate the persisted/failed tallies, and the error list the
failure messages, in input order. -/
theorem upsertLoop_spec (storeErr : Nat → Option String) (now : Nat)
    (ms : List JVal) : ∀ (k : Nat) (db : DB) (ins fl : Nat) (errs : List String),
    upsertLoop storeErr now ms k db ins fl errs =
      ((okRows storeErr ms k).foldl (mergeDB now) db,
       ins + (okRows storeErr ms k).length,
       fl + (failMsgs storeErr ms k).length,
       errs ++ failMsgs storeErr ms k) := by
  induction ms with
  | nil => intro k db ins fl errs; simp [upsertLoop, okRows_nil, failMsgs_nil]
  | cons m rest ih =>
    intro k db ins fl errs
    cases hb : buildM m with
    | none =>
      have ho : recordOutcome storeErr k m = some s!"Record {k}: {tsConvErrMsg}" := by
        simp [recordOutcome, hb]
      rw [failMsgs_cons_fail rest ho, okRows_cons_buildfail rest hb]
      simp only [upsertLoop, hb, ih]
      simp [Nat.add_assoc, Nat.add_comm, Nat.add_left_comm]
    | some hm =>
      cases hs : storeErr k with
      | some em =>
        have ho : recordOutcome storeErr k m = some s!"Record {k}: {em}" := by
          simp [recordOutcome, hb, hs]
        rw [failMsgs_cons_fail rest ho, okRows_cons_storefail rest hb hs]
        simp only [upsertLoop, hb, hs, ih]
        simp [Nat.add_assoc, Nat.add_comm, Nat.add_left_comm]
      | none =>
        have ho : recordOutcome storeErr k m = none := by
          simp [recordOutcome, hb, hs]
        rw [failMsgs_cons_ok rest ho, okRows_cons_ok rest hb hs]
        simp only [upsertLoop, hb, hs, ih]
        simp [Nat.add_assoc, Nat.add_comm, Nat.add_left_comm]

/-- Every record either persists or fails: the two tallies partition the
batch. -/
theorem okRows_length_add_failMsgs_length (storeErr : Nat → Option String)
    (ms : List JVal) : ∀ k : Nat,
    (okRows storeErr ms k).length + (failMsgs storeErr ms k).length = ms.length := by
  induction ms with
  | nil => intro k; simp [okRows_nil, failMsgs_nil]
  | cons m rest ih =>
    intro k
    cases hb : buildM m with
    | none =>
      have ho : recordOutcome storeErr k m = some s!"Record {k}: {tsConvErrMsg}" := by
        simp [recordOutcome, hb]
      rw [failMsgs_cons_fail rest ho, okRows_cons_buildfail rest hb]
      have := ih (k + 1)
      simp only [List.length_cons]
      omega
    | some hm =>
      cases hs : storeErr k with
      | some em =>
        have ho : recordOutcome storeErr k m = some s!"Record {k}: {em}" := by
          simp [recordOutcome, hb, hs]
        rw [failMsgs_cons_fail rest ho, okRows_cons_storefail rest hb hs]
        have := ih (k + 1)
        simp only [List.length_cons]
        omega
      | none =>
        have ho : recordOutcome storeErr k m = none := by
          simp [recordOutcome, hb, hs]
        rw [failMsgs_cons_ok rest ho, okRows_cons_ok rest hb hs]
        have := ih (k + 1)
        simp only [List.length_cons]
        omega

/-- `insert_or_update_metrics` when the commit succeeds, described by the
specification-side functions. -/
theorem insert_ok_spec (storeErr : Nat → Option String) (now : Nat) (db : DB)
    (ms : List JVal) :
    insert_or_update_metrics storeErr none now db ms =
      (Except.ok ⟨(failMsgs storeErr ms 0).length == 0, (okRows storeErr ms 0).length,
        (failMsgs storeErr ms 0).length, (failMsgs storeErr ms 0).take 5⟩,
       (okRows storeErr ms 0).foldl (mergeDB now) db) := by
  simp [insert_or_update_metrics, upsertLoop_spec]

/-- `insert_or_update_metrics` when the commit fails: rollback, and a single
batch-level error. -/
theorem insert_commit_fail (storeErr : Nat → Option String) (d : String)
    (now : Nat) (db : DB) (ms : List JVal) :
    insert_or_update_metrics storeErr (some d) now db ms =
      (Except.error s!"Batch insert failed: {d}", db) := by
  rcases h : upsertLoop storeErr now ms 0 db 0 0 [] with ⟨w, i, f, e⟩
  simp [insert_or_update_metrics, h]

/-- Merging a record whose natural key is absent from the store inserts a
new row with the fresh surrogate id and `CreatedAt = now`. -/
theorem mergeDB_insert {db : DB} {hm : HMRow}
    (hfresh : ∀ row ∈ db.rows, keyMatch row.data hm = false) (now : Nat) :
    mergeDB now db hm = ⟨db.rows ++ [⟨db.nextId, hm, now⟩], db.nextId + 1⟩ := by
  have hany : db.rows.any (fun r => keyMatch r.data hm) = false := by
    rw [List.any_eq_false]
    intro r hr
    simp [hfresh r hr]
  simp [mergeDB, hany]

/-- Rows whose keys do not match are untouched by the MERGE update pass. -/
theorem map_merge_id {hm : HMRow} (rows : List StoreRow)
    (h : ∀ row ∈ rows, keyMatch row.data hm = false) :
    rows.map (fun r => if keyMatch r.data hm
      then (⟨r.id, updateMut r.data hm, r.createdAt⟩ : StoreRow) else r) = rows := by
  induction rows with
  | nil => simp
  | cons r rs ih =>
    have hr : keyMatch r.data hm = false := h r (by simp)
    simp [hr, ih (fun x hx => h x (by simp [hx]))]

/-- Merging a record into a store holding exactly one row with its key and
the same data leaves the store unchanged. -/
theorem mergeDB_update_self {rows : List StoreRow} {hm : HMRow}
    (hfresh : ∀ row ∈ rows, keyMatch row.data hm = false)
    (now idv cav nid : Nat) :
    mergeDB now ⟨rows ++ [⟨idv, hm, cav⟩], nid⟩ hm = ⟨rows ++ [⟨idv, hm, cav⟩], nid⟩ := by
  have hany : (rows ++ [(⟨idv, hm, cav⟩ : StoreRow)]).any
      (fun r => keyMatch r.data hm) = true := by
    simp [List.any_append, keyMatch_rfl]
  simp only [mergeDB, hany, if_true, List.map_append]
  rw [map_merge_id rows hfresh]
  simp [keyMatch_rfl, updateMut_self]

/-- A store whose other rows are key-free holds exactly one row with the
key. -/
theorem filter_key_count {rows : List StoreRow} {hm : HMRow}
    (hfresh : ∀ row ∈ rows, keyMatch row.data hm = false) (idv cav : Nat) :
    ((rows ++ [(⟨idv, hm, cav⟩ : StoreRow)]).filter
      (fun row => keyMatch row.data hm)).length = 1 := by
  rw [List.filter_append]
  have h1 : rows.filter (fun row => keyMatch row.data hm) = [] := by
    rw [List.filter_eq_nil_iff]
    intro a ha
    simp [hfresh a ha]
  simp [h1, keyMatch_rfl]

/-- C1: Upserting is idempotent on the natural key
`(userId, deviceId, timestamp, recordHash)`: for a record whose key is not
yet stored, one submission through the upsert engine inserts exactly one
row for that key, carrying the record's mutable values and
`createdAt = now1`; a second submission of the same record reports the same
result and leaves the store — row values and `createdAt` included —
identical to the single submission. -/
theorem claim_C1_upsert_idempotent (m : JVal) (hm : HMRow) (now1 now2 : Nat)
    (db : DB) (hb : buildM m = some hm)
    (hfresh : ∀ row ∈ db.rows, keyMatch row.data hm = false) :
    insert_or_update_metrics (fun _ => none) none now1 db [m] =
      (Except.ok ⟨true, 1, 0, []⟩, ⟨db.rows ++ [⟨db.nextId, hm, now1⟩], db.nextId + 1⟩) ∧
    insert_or_update_metrics (fun _ => none) none now2
        ⟨db.rows ++ [⟨db.nextId, hm, now1⟩], db.nextId + 1⟩ [m] =
      (Except.ok ⟨true, 1, 0, []⟩, ⟨db.rows ++ [⟨db.nextId, hm, now1⟩], db.nextId + 1⟩) ∧
    ((db.rows ++ [(⟨db.nextId, hm, now1⟩ : StoreRow)]).filter
      (fun row => keyMatch row.data hm)).length = 1 ∧
    (∀ row ∈ db.rows ++ [(⟨db.nextId, hm, now1⟩ : StoreRow)],
      keyMatch row.data hm = true → row.data = hm ∧ row.createdAt = now1) := by
  have hok1 : okRows (fun _ => none) [m] 0 = [hm] := by
    rw [okRows_cons_ok [] hb rfl]
    rfl
  have hfail1 : failMsgs (fun _ => none) [m] 0 = [] := by
    rw [failMsgs_cons_ok [] (by simp [recordOutcome, hb])]
    rfl
  refine ⟨?_, ?_, ?_, ?_⟩
  · rw [insert_ok_spec, hok1, hfail1, List.foldl_cons, List.foldl_nil,
      mergeDB_insert hfresh now1]
    rfl
  · rw [insert_ok_spec, hok1, hfail1, List.foldl_cons, List.foldl_nil,
      mergeDB_update_self hfresh now2 db.nextId now1 (db.nextId + 1)]
    rfl
  · exact filter_key_count hfresh db.nextId now1
  · intro row hrow hk
    rcases List.mem_append.mp hrow with h | h
    · exact absurd hk (by simp [hfresh row h])
    · rw [List.mem_singleton] at h
      subst h
      exact ⟨rfl, rfl⟩

/-- C1 witness: the idempotence theorem at the concrete record `rec0` and
an empty store. -/
theorem claim_C1_witness :
    insert_or_update_metrics (fun _ => none) none 5 ⟨[], 1⟩ [m0] =
      (Except.ok ⟨true, 1, 0, []⟩, ⟨[⟨1, hm0, 5⟩], 2⟩) ∧
    insert_or_update_metrics (fun _ => none) none 9 ⟨[⟨1, hm0, 5⟩], 2⟩ [m0] =
      (Except.ok ⟨true, 1, 0, []⟩, ⟨[⟨1, hm0, 5⟩], 2⟩) ∧
    (([(⟨1, hm0, 5⟩ : StoreRow)]).filter
      (fun row => keyMatch row.data hm0)).length = 1 := by
  have h := claim_C1_upsert_idempotent m0 hm0 5 9 ⟨[], 1⟩ rfl (by simp)
  exact ⟨by simpa using h.1, by simpa using h.2.1, by simpa using h.2.2.1⟩

/-- C3: when the commit of the batch transaction fails after the per-record
loop, the engine rolls back the whole batch (the committed store is
unchanged), discards the per-record bookkeeping, and surfaces one
batch-level `Exception("Batch insert failed: ...")`, distinct from the
per-record error list. -/
theorem claim_C3_commit_failure_rollback (storeErr : Nat → Option String)
    (d : String) (now : Nat) (db : DB) (ms : List JVal) :
    insert_or_update_metrics storeErr (some d) now db ms =
      (Except.error s!"Batch insert failed: {d}", db) :=
  insert_commit_fail storeErr d now db ms

/-- C4: a failure on one record does not abort the batch: the loop counts
it as failed, records `"Record {i}: {message}"` (see `recordOutcome` and
`failMsgs`), still attempts every remaining record, commits the merges of
all persisted records, and surfaces at most the first 5 error messages. -/
theorem claim_C4_per_record_failures_tolerated (storeErr : Nat → Option String)
    (now : Nat) (db : DB) (ms : List JVal) :
    insert_or_update_metrics storeErr none now db ms =
      (Except.ok ⟨(failMsgs storeErr ms 0).length == 0, (okRows storeErr ms 0).length,
        (failMsgs storeErr ms 0).length, (failMsgs storeErr ms 0).take 5⟩,
       (okRows storeErr ms 0).foldl (mergeDB now) db) ∧
    (okRows storeErr ms 0).length + (failMsgs storeErr ms 0).length = ms.length ∧
    ((failMsgs storeErr ms 0).take 5).length ≤ 5 := by
  refine ⟨insert_ok_spec storeErr now db ms,
    okRows_length_add_failMsgs_length storeErr ms 0, ?_⟩
  simp only [List.length_take]
  omega

/-- C10: whenever the engine returns a result, the counts partition the
batch and the success flag means no failures. -/
theorem claim_C10_counts_partition (storeErr : Nat → Option String)
    (commitErr : Option String) (now : Nat) (db : DB) (ms : List JVal)
    (r : UpsertResult) (db2 : DB)
    (h : insert_or_update_metrics storeErr commitErr now db ms = (Except.ok r, db2)) :
    r.inserted + r.failed = ms.length ∧ (r.success = true ↔ r.failed = 0) := by
  cases commitErr with
  | some d =>
    rw [insert_commit_fail] at h
    exact absurd h (by simp)
  | none =>
    rw [insert_ok_spec] at h
    have h1 := congrArg Prod.fst h
    simp only [Prod.fst] at h1
    have hr : (⟨(failMsgs storeErr ms 0).length == 0, (okRows storeErr ms 0).length,
        (failMsgs storeErr ms 0).length, (failMsgs storeErr ms 0).take 5⟩ : UpsertResult) = r := by
      exact Except.ok.inj h1
    constructor
    · rw [← hr]
      exact okRows_length_add_failMsgs_length storeErr ms 0
    · rw [← hr]
      simp

/-- C10 witness: the counts theorem at a concrete one-record batch the
store rejects. -/
theorem claim_C10_witness :
    (0 : Nat) + 1 = [m0].length ∧ ((false : Bool) = true ↔ (1 : Nat) = 0) := by
  have h := claim_C10_counts_partition (fun _ => some "boom") none 0 ⟨[], 1⟩ [m0]
      ⟨false, 0, 1, ["Record 0: boom"]⟩ ⟨[], 1⟩ rfl
  exact h

theorem dget_cons_of_ne {k key : String} (v : JVal) (m : Dict) (h : k ≠ key) :
    dget ((k, v) :: m) key = dget m key := by
  simp [dget, dlookup, h]

theorem dget_cons_self (k : String) (v : JVal) (m : Dict) :
    dget ((k, v) :: m) k = v := by
  simp [dget, dlookup]

theorem hasKey_cons_of_ne {k key : String} (v : JVal) (m : Dict) (h : k ≠ key) :
    hasKey ((k, v) :: m) key = hasKey m key := by
  simp [hasKey, dlookup, h]

theorem hasKey_cons_self (k : String) (v : JVal) (m : Dict) :
    hasKey ((k, v) :: m) k = true := by
  simp [hasKey, dlookup]

theorem dlookup_of_hasKey_false {m : Dict} {k : String} (h : hasKey m k = false) :
    dlookup m k = none := by
  cases h' : dlookup m k with
  | none => rfl
  | some v => rw [hasKey, h'] at h; simp at h

theorem dget_of_hasKey_false {m : Dict} {k : String} (h : hasKey m k = false) :
    dget m k = JVal.vnull := by
  rw [dget, dlookup_of_hasKey_false h]
  rfl

/-- Whether a required-field flag fires does not depend on the message. -/
theorem flag_nil {c : Prop} [Decidable c] {a b : String}
    (h : (if c then [a] else []) = []) : (if c then [b] else []) = [] := by
  by_cases hc : c <;> simp [hc] at h ⊢

/-- Whether an optional numeric range check fires does not depend on the
messages. -/
theorem numFieldErrs_nil_mono {v : JVal} {lo hi : ℚ} {t r t2 r2 : String}
    (h : numFieldErrs v lo hi t r = []) : numFieldErrs v lo hi t2 r2 = [] := by
  unfold numFieldErrs at h ⊢
  by_cases hn : isNull v
  · simp [hn]
  · simp only [hn, Bool.false_eq_true, if_false] at h ⊢
    cases ha : asNum v with
    | none => rw [ha] at h; simp at h
    | some q =>
      rw [ha] at h
      by_cases hr : lo ≤ q ∧ q ≤ hi
      · simp [hr]
      · simp [hr] at h

theorem numMinErrs_nil_mono {v : JVal} {t r t2 r2 : String}
    (h : numMinErrs v t r = []) : numMinErrs v t2 r2 = [] := by
  unfold numMinErrs at h ⊢
  by_cases hn : isNull v
  · simp [hn]
  · simp only [hn, Bool.false_eq_true, if_false] at h ⊢
    cases ha : asNum v with
    | none => rw [ha] at h; simp at h
    | some q =>
      rw [ha] at h
      by_cases hr : q < 0
      · simp [hr] at h
      · simp [hr]

theorem intFieldErrs_nil_mono {v : JVal} {lo hi : Int} {t r t2 r2 : String}
    (h : intFieldErrs v lo hi t r = []) : intFieldErrs v lo hi t2 r2 = [] := by
  unfold intFieldErrs at h ⊢
  by_cases hn : isNull v
  · simp [hn]
  · simp only [hn, Bool.false_eq_true, if_false] at h ⊢
    cases ha : asInt v with
    | none => rw [ha] at h; simp at h
    | some n =>
      rw [ha] at h
      by_cases hr : lo ≤ n ∧ n ≤ hi
      · simp [hr]
      · simp [hr] at h

theorem intMinErrs_nil_mono {v : JVal} {t r t2 r2 : String}
    (h : intMinErrs v t r = []) : intMinErrs v t2 r2 = [] := by
  unfold intMinErrs at h ⊢
  by_cases hn : isNull v
  · simp [hn]
  · simp only [hn, Bool.false_eq_true, if_false] at h ⊢
    cases ha : asInt v with
    | none => rw [ha] at h; simp at h
    | some n =>
      rw [ha] at h
      by_cases hr : n < 0
      · simp [hr] at h
      · simp [hr]

/-- Whether the timestamp check passes does not depend on the message. -/
theorem tsErrs_some_nil_mono {v : JVal} {m m2 : String}
    (h : tsErrs v m = some []) : tsErrs v m2 = some [] := by
  unfold tsErrs at h ⊢
  by_cases hn : isNull v
  · simp [hn] at h
  · simp only [hn, Bool.false_eq_true, if_false] at h ⊢
    cases ha : asNum v with
    | none => rw [ha] at h; simp at h
    | some q =>
      rw [ha] at h
      by_cases hq : q ≤ 0
      · simp [hq] at h
      · simp [hq]

/-- A record that the field validator accepts at one index is accepted at
every index (only the messages mention the index). -/
theorem validate_metric_nil_mono {m : Dict} {i j : Nat}
    (h : validate_metric m i = some []) : validate_metric m j = some [] := by
  unfold validate_metric at h ⊢
  cases hts : tsErrs (dget m "timestamp")
      s!"Record {i}: invalid timestamp (must be positive)" with
  | none => rw [hts] at h; exact absurd h (by simp)
  | some e3 =>
    rw [hts] at h
    simp only [Option.some.injEq, List.append_eq_nil, and_assoc] at h
    obtain ⟨h1, h2, h3, h4, h5, h6, h7, h8, h9, h10, h11, h12, h13, h14, h15,
      h16, h17, h18, h19, h20⟩ := h
    rw [tsErrs_some_nil_mono (h3 ▸ hts)]
    simp only [Option.some.injEq, List.append_eq_nil, and_assoc]
    exact ⟨flag_nil h1, flag_nil h2, trivial, flag_nil h4, numFieldErrs_nil_mono h5,
      numFieldErrs_nil_mono h6, numFieldErrs_nil_mono h7, numFieldErrs_nil_mono h8,
      numFieldErrs_nil_mono h9, numFieldErrs_nil_mono h10, intMinErrs_nil_mono h11,
      numMinErrs_nil_mono h12, numMinErrs_nil_mono h13, intFieldErrs_nil_mono h14,
      intFieldErrs_nil_mono h15, intFieldErrs_nil_mono h16, intFieldErrs_nil_mono h17,
      numFieldErrs_nil_mono h18, intFieldErrs_nil_mono h19, flag_nil h20⟩

/-- One step of the batch loop, via `elemErrs`. -/
theorem batchLoop_cons (m : JVal) (rest : List JVal) (k : Nat) :
    batchLoop (m :: rest) k =
      (elemErrs m k).bind
        (fun errs => (batchLoop rest (k + 1)).map (fun more => errs ++ more)) := by
  cases m with
  | vobj d =>
    cases hv : validate_metric d k with
    | none => simp [batchLoop, elemErrs, hv]
    | some errs => simp [batchLoop, elemErrs, hv]
  | vnull => simp [batchLoop, elemErrs]
  | vbool b => simp [batchLoop, elemErrs]
  | vint n => simp [batchLoop, elemErrs]
  | vfloat q => simp [batchLoop, elemErrs]
  | vstr s => simp [batchLoop, elemErrs]
  | varr xs => simp [batchLoop, elemErrs]

/-- A non-object element contributes exactly its one message. -/
theorem elemErrs_nonobj {v : JVal} (k : Nat) (hv : ∀ d : Dict, v ≠ JVal.vobj d) :
    elemErrs v k = some [nonObjMsg k] := by
  cases v with
  | vobj d => exact absurd rfl (hv d)
  | vnull => rfl
  | vbool b => rfl
  | vint n => rfl
  | vfloat q => rfl
  | vstr s => rfl
  | varr xs => rfl

/-- The batch loop over object elements is the concatenation of the field
validator's lists. -/
theorem batchLoop_map_vobj (ds : List Dict) : ∀ k : Nat,
    batchLoop (ds.map JVal.vobj) k = concatErrs ds k := by
  induction ds with
  | nil => intro k; rfl
  | cons d rest ih =>
    intro k
    cases hv : validate_metric d k with
    | none => simp [batchLoop, concatErrs, hv]
    | some errs => simp [batchLoop, concatErrs, hv, ih]

/-- A batch of records each accepted by the field validator concatenates to
no violations, from any starting index. -/
theorem concatErrs_all_nil (ds : List Dict)
    (h : ∀ d ∈ ds, validate_metric d 0 = some []) : ∀ k : Nat,
    concatErrs ds k = some [] := by
  induction ds with
  | nil => intro k; rfl
  | cons d rest ih =>
    intro k
    have hd : validate_metric d k = some [] :=
      validate_metric_nil_mono (h d (by simp))
    have hr := ih (fun x hx => h x (by simp [hx])) (k + 1)
    simp [concatErrs, hd, hr]

/-- C2 counterexample: the field validator is not total — on the record
`{"timestamp": "x"}` (a dict whose timestamp is a non-null, non-numeric
value) the comparison `timestamp <= 0` raises `TypeError`, encoded as
`none`, so the claim that it never raises on any dictionary is false. -/
theorem claim_C2_counterexample :
    validate_metric [("timestamp", JVal.vstr "x")] 0 = none := rfl

/-- C2 (amended): for every record whose timestamp value is absent, null,
or numeric, and every index, the field validator returns a (possibly
empty) list of violation strings without raising; a present non-null
non-numeric timestamp makes it raise. -/
theorem claim_C2_validator_total (metric : Dict) (index : Nat)
    (h : isNull (dget metric "timestamp") = true ∨
      (asNum (dget metric "timestamp")).isSome = true) :
    (validate_metric metric index).isSome = true := by
  unfold validate_metric
  cases hts : tsErrs (dget metric "timestamp")
      s!"Record {index}: invalid timestamp (must be positive)" with
  | some e3 => simp
  | none =>
    exfalso
    unfold tsErrs at hts
    by_cases hn : isNull (dget metric "timestamp")
    · simp [hn] at hts
    · simp only [hn, Bool.false_eq_true, if_false] at hts
      cases ha : asNum (dget metric "timestamp") with
      | some q => rw [ha] at hts; simp at hts
      | none =>
        rcases h with h | h
        · exact hn h
        · rw [ha] at h; simp at h

/-- C2 witness: the amended totality theorem at a concrete record with a
numeric timestamp. -/
theorem claim_C2_witness :
    (validate_metric [("timestamp", JVal.vint 5)] 0).isSome = true :=
  claim_C2_validator_total [("timestamp", JVal.vint 5)] 0 (Or.inr rfl)

/-- C8: the batch validator rejects the empty list with its size message,
rejects every list of 501 elements, accepts 500 records the field
validator accepts, and accepts a batch of 1 to 500 records exactly when
the concatenated per-record violation list (`concatErrs`) is empty. -/
theorem claim_C8_batch_admission :
    validate_batch (JVal.varr []) = some (false, ["metrics array cannot be empty"]) ∧
    (∀ ms : List JVal, ms.length = 501 →
      validate_batch (JVal.varr ms) = some (false, [oversizeMsg 501])) ∧
    (∀ ds : List Dict, ds.length = 500 →
      (∀ d ∈ ds, validate_metric d 0 = some []) →
      validate_batch (JVal.varr (ds.map JVal.vobj)) = some (true, [])) ∧
    (∀ (ds : List Dict) (es : List String), 1 ≤ ds.length → ds.length ≤ 500 →
      concatErrs ds 0 = some es →
      validate_batch (JVal.varr (ds.map JVal.vobj)) = some (es.isEmpty, es)) := by
  refine ⟨rfl, ?_, ?_, ?_⟩
  · intro ms h
    simp [validate_batch, h]
  · intro ds h hall
    have hl : (ds.map JVal.vobj).length = 500 := by simp [h]
    simp [validate_batch, hl, batchLoop_map_vobj, concatErrs_all_nil ds hall 0]
  · intro ds es h1 h500 hc
    simp only [validate_batch, List.length_map]
    rw [if_neg (by omega), if_neg (by omega), batchLoop_map_vobj, hc]
    rfl

/-- C8 witness: the admission theorem at the empty batch, a 501-element
batch and a 500-element batch of concrete valid records. -/
theorem claim_C8_witness :
    validate_batch (JVal.varr (List.replicate 501 JVal.vnull)) =
      some (false, [oversizeMsg 501]) ∧
    validate_batch (JVal.varr (List.map JVal.vobj (List.replicate 500 rec0))) =
      some (true, []) := by
  constructor
  · exact claim_C8_batch_admission.2.1 (List.replicate 501 JVal.vnull)
      (by rw [List.length_replicate])
  · refine claim_C8_batch_admission.2.2.1 (List.replicate 500 rec0)
      (by rw [List.length_replicate]) ?_
    intro d hd
    rw [List.eq_of_mem_replicate hd]
    rfl

/-- C5 counterexample: a batch of two non-record elements is rejected with
a two-item violation list — a non-record element neither short-circuits the
scan nor leaves a single-item list, contradicting the claim. -/
theorem claim_C5_counterexample :
    validate_batch (JVal.varr [JVal.vint 1, JVal.vint 2]) =
      some (false, [nonObjMsg 0, nonObjMsg 1]) ∧
    (validate_batch (JVal.varr [JVal.vint 1, JVal.vint 2])).map
      (fun p => p.2.length) = some 2 := ⟨rfl, rfl⟩

/-- C5 (amended): a non-sequence input, the empty sequence and a sequence
longer than 500 each short-circuit `validate_batch` with a single-item
violation list; a non-record element, however, contributes its single
violation `"Record {i}: must be a JSON object"` to the collected list and
the scan continues over the remaining elements. -/
theorem claim_C5_structural_rejection :
    (∀ v : JVal, (∀ l : List JVal, v ≠ JVal.varr l) →
      validate_batch v = some (false, ["metrics must be an array"])) ∧
    validate_batch (JVal.varr []) = some (false, ["metrics array cannot be empty"]) ∧
    (∀ ms : List JVal, 500 < ms.length →
      validate_batch (JVal.varr ms) = some (false, [oversizeMsg ms.length])) ∧
    (∀ (pre : List JVal) (v : JVal) (post : List JVal) (k : Nat),
      (∀ d : Dict, v ≠ JVal.vobj d) →
      batchLoop (pre ++ v :: post) k =
        (batchLoop pre k).bind (fun e1 => (batchLoop post (k + pre.length + 1)).map
          (fun e2 => e1 ++ nonObjMsg (k + pre.length) :: e2))) := by
  refine ⟨?_, rfl, ?_, ?_⟩
  · intro v hv
    cases v with
    | varr l => exact absurd rfl (hv l)
    | vnull => rfl
    | vbool b => rfl
    | vint n => rfl
    | vfloat q => rfl
    | vstr s => rfl
    | vobj fs => rfl
  · intro ms h
    simp only [validate_batch]
    rw [if_neg (by omega), if_pos (by omega)]
  · intro pre v post k hv
    induction pre generalizing k with
    | nil =>
      rw [List.nil_append, batchLoop_cons, elemErrs_nonobj k hv]
      cases hp : batchLoop post (k + 1) with
      | none => simp [batchLoop, hp]
      | some e2 => simp [batchLoop, hp]
    | cons m pre ih =>
      rw [List.cons_append, batchLoop_cons, batchLoop_cons m pre k, ih (k + 1)]
      cases he : elemErrs m k with
      | none => simp
      | some e1 =>
        cases hp : batchLoop pre (k + 1) with
        | none => simp
        | some ep =>
          have hidx : k + 1 + pre.length = k + (m :: pre).length := by
            simp [List.length_cons]
            omega
          rw [hidx]
          cases hq : batchLoop post (k + (m :: pre).length + 1) with
          | none => simp
          | some e2 => simp [List.append_assoc]

/-- C5 witness: the amended theorem at a non-sequence input, a 501-element
batch, and a split batch with a concrete non-record element in the
middle. -/
theorem claim_C5_witness :
    validate_batch (JVal.vint 7) = some (false, ["metrics must be an array"]) ∧
    validate_batch (JVal.varr (List.replicate 501 JVal.vnull)) =
      some (false, [oversizeMsg 501]) ∧
    batchLoop ([m0] ++ JVal.vint 3 :: [m0]) 0 =
      (batchLoop [m0] 0).bind (fun e1 => (batchLoop [m0] (0 + [m0].length + 1)).map
        (fun e2 => e1 ++ nonObjMsg (0 + [m0].length) :: e2)) := by
  refine ⟨claim_C5_structural_rejection.1 _ (by intro l h; cases h), ?_, ?_⟩
  · have h := claim_C5_structural_rejection.2.2.1 (List.replicate 501 JVal.vnull)
      (by rw [List.length_replicate]; omega)
    rw [List.length_replicate] at h
    exact h
  · exact claim_C5_structural_rejection.2.2.2 [m0] (JVal.vint 3) [m0] 0
      (by intro d h; cases h)

/-- C9 counterexample: a record whose `isWearing` is present with value
null yields the `isWearing must be boolean` violation — so it is false
that every field of the typed-range table, `isWearing` included, is
checked only if present and non-null. -/
theorem claim_C9_counterexample :
    validate_metric [("userId", JVal.vstr "u"), ("deviceId", JVal.vstr "d"),
      ("timestamp", JVal.vint 1), ("recordHash", JVal.vstr "h"),
      ("isWearing", JVal.vnull)] 0 = some ["Record 0: isWearing must be boolean"] := rfl

/-- C9 (amended): every optional field of the typed-range table except
`isWearing` is checked only if present and non-null — presenting it with
value null validates exactly like leaving it absent; `isWearing`, however,
is type-checked whenever its key is present, so a null `isWearing` adds the
boolean-type violation. -/
theorem claim_C9_null_optional_fields :
    (∀ (metric : Dict) (index : Nat) (k : String), k ∈ nullSkippedFields →
      hasKey metric k = false →
      validate_metric ((k, JVal.vnull) :: metric) index = validate_metric metric index) ∧
    (∀ (metric : Dict) (index : Nat), hasKey metric "isWearing" = false →
      validate_metric (("isWearing", JVal.vnull) :: metric) index =
        (validate_metric metric index).map
          (fun l => l ++ [s!"Record {index}: isWearing must be boolean"])) := by
  constructor
  · intro metric index k hk hno
    simp only [nullSkippedFields, List.mem_cons, List.not_mem_nil, or_false] at hk
    rcases hk with rfl | rfl | rfl | rfl | rfl | rfl | rfl | rfl | rfl | rfl |
      rfl | rfl | rfl | rfl | rfl <;>
    · have hdg := dget_of_hasKey_false hno
      simp [validate_metric, dget_cons_of_ne, hasKey_cons_of_ne, dget_cons_self,
        hasKey_cons_self, hdg]
  · intro metric index hno
    cases hts : tsErrs (dget metric "timestamp")
        s!"Record {index}: invalid timestamp (must be positive)" with
    | none =>
      simp [validate_metric, dget_cons_of_ne, hasKey_cons_of_ne, hts]
    | some e3 =>
      simp [validate_metric, dget_cons_of_ne, hasKey_cons_of_ne, dget_cons_self,
        hasKey_cons_self, hts, hno, isBool, List.append_assoc]

/-- C9 witness: the amended theorem at concrete records carrying a null
`heartRate` and a null `isWearing`. -/
theorem claim_C9_witness :
    validate_metric [("heartRate", JVal.vnull), ("timestamp", JVal.vint 1)] 0 =
      validate_metric [("timestamp", JVal.vint 1)] 0 ∧
    validate_metric [("isWearing", JVal.vnull), ("timestamp", JVal.vint 1)] 0 =
      (validate_metric [("timestamp", JVal.vint 1)] 0).map
        (fun l => l ++ ["Record 0: isWearing must be boolean"]) := by
  constructor
  · exact claim_C9_null_optional_fields.1 [("timestamp", JVal.vint 1)] 0 "heartRate"
      (by simp [nullSkippedFields]) rfl
  · exact claim_C9_null_optional_fields.2 [("timestamp", JVal.vint 1)] 0 rfl

/-- A dict with a binding is not Python-falsy. -/
theorem vobj_not_falsy {dta : Dict} {key : String} {v : JVal}
    (h : dlookup dta key = some v) : isFalsy (JVal.vobj dta) = false := by
  cases dta with
  | nil => simp [dlookup] at h
  | cons p rest => simp [isFalsy]

/-- The endpoint on a request whose batch fails validation: 400, with the
first 10 violations. -/
theorem uploadHealthMetrics_validation_fail (autoId : String) (dur : Int)
    (sErr : Option String) (storeErr : Nat → Option String) (cErr : Option String)
    (now : Nat) (db : DB) (dta : Dict) (mv : JVal) (verrs : List String)
    (hm : dlookup dta "metrics" = some mv)
    (hv : validate_batch mv = some (false, verrs)) :
    uploadHealthMetrics (some (JVal.vobj dta)) autoId dur sErr storeErr cErr now db =
      (⟨[("error", JVal.vstr "Validation failed"),
         ("details", JVal.varr ((verrs.take 10).map JVal.vstr))], 400⟩, db) := by
  have hnf := vobj_not_falsy hm
  simp [uploadHealthMetrics, hnf, hm, hv]

/-- The endpoint on a validated request when the session cannot be created:
500, generic error plus the exception text. -/
theorem uploadHealthMetrics_session_fail (autoId : String) (dur : Int)
    (s : String) (storeErr : Nat → Option String) (cErr : Option String)
    (now : Nat) (db : DB) (dta : Dict) (mv : JVal) (verrs : List String)
    (hm : dlookup dta "metrics" = some mv)
    (hv : validate_batch mv = some (true, verrs)) :
    uploadHealthMetrics (some (JVal.vobj dta)) autoId dur (some s) storeErr cErr now db =
      (⟨[("error", JVal.vstr "Database insertion failed"),
         ("message", JVal.vstr s)], 500⟩, db) := by
  have hnf := vobj_not_falsy hm
  simp [uploadHealthMetrics, hnf, hm, hv]

/-- The endpoint on a validated request with a live session: the outcome is
the upsert engine's. -/
theorem uploadHealthMetrics_upsert_path (autoId : String) (dur : Int)
    (storeErr : Nat → Option String) (cErr : Option String) (now : Nat)
    (db : DB) (dta : Dict) (ms : List JVal) (verrs : List String)
    (hm : dlookup dta "metrics" = some (JVal.varr ms))
    (hv : validate_batch (JVal.varr ms) = some (true, verrs)) :
    uploadHealthMetrics (some (JVal.vobj dta)) autoId dur none storeErr cErr now db =
      (match insert_or_update_metrics storeErr cErr now db ms with
       | (Except.error emsg, db2) =>
         (⟨[("error", JVal.vstr "Database insertion failed"),
            ("message", JVal.vstr emsg)], 500⟩, db2)
       | (Except.ok r, db2) =>
         (⟨mkSuccessBody r dur ((dlookup dta "correlationId").getD (JVal.vstr autoId)),
           upstatus r⟩, db2)) := by
  have hnf := vobj_not_falsy hm
  simp [uploadHealthMetrics, hnf, hm, hv]

/-- The two result facts an `Except.ok` outcome of the engine always
satisfies: the counts partition the batch, and the success flag is the
failed count's nullity. -/
theorem insert_ok_facts {storeErr : Nat → Option String} {commitErr : Option String}
    {now : Nat} {db : DB} {ms : List JVal} {r : UpsertResult} {db2 : DB}
    (h : insert_or_update_metrics storeErr commitErr now db ms = (Except.ok r, db2)) :
    r.inserted + r.failed = ms.length ∧ r.success = (r.failed == 0) := by
  cases commitErr with
  | some d =>
    rw [insert_commit_fail] at h
    exact absurd h (by simp)
  | none =>
    rw [insert_ok_spec] at h
    have h1 := congrArg Prod.fst h
    simp only [Prod.fst] at h1
    have hr := Except.ok.inj h1
    constructor
    · rw [← hr]
      exact okRows_length_add_failMsgs_length storeErr ms 0
    · rw [← hr]

/-- A batch the validator accepts is non-empty. -/
theorem validate_batch_true_ne_nil {ms : List JVal} {verrs : List String}
    (hv : validate_batch (JVal.varr ms) = some (true, verrs)) : ms ≠ [] := by
  intro h
  subst h
  simp [validate_batch] at hv

/-- C6 counterexample: with a concrete valid batch and a commit failure
whose detail is `connection reset by peer`, the 500 response body's
`message` field carries `Batch insert failed: connection reset by peer` —
the underlying storage error detail is returned to the caller — and the
body holds no `correlationId` key; so the claim that such bodies contain
only a generic message plus the correlation id is false on the code. -/
theorem claim_C6_counterexample :
    (uploadHealthMetrics (some (JVal.vobj [("metrics", JVal.varr [m0])])) "auto" 7
        none (fun _ => none) (some "connection reset by peer") 0 ⟨[], 1⟩).1 =
      ⟨[("error", JVal.vstr "Database insertion failed"),
        ("message", JVal.vstr "Batch insert failed: connection reset by peer")], 500⟩ ∧
    hasKey (uploadHealthMetrics (some (JVal.vobj [("metrics", JVal.varr [m0])])) "auto" 7
        none (fun _ => none) (some "connection reset by peer") 0 ⟨[], 1⟩).1.body
      "correlationId" = false := ⟨rfl, rfl⟩

/-- C6 (amended): on a transaction-level failure (commit raises with detail
`d`) the response body is the generic `Database insertion failed` plus a
`message` field carrying the raw exception text
`Batch insert failed: {d}` — so the storage detail is surfaced — and the
body contains no correlation id; a session-creation failure is answered the
same way with its own exception text. -/
theorem claim_C6_error_responses :
    (∀ (autoId : String) (dur : Int) (storeErr : Nat → Option String) (d : String)
       (now : Nat) (db : DB) (dta : Dict) (ms : List JVal) (verrs : List String),
      dlookup dta "metrics" = some (JVal.varr ms) →
      validate_batch (JVal.varr ms) = some (true, verrs) →
      uploadHealthMetrics (some (JVal.vobj dta)) autoId dur none storeErr (some d) now db =
        (⟨[("error", JVal.vstr "Database insertion failed"),
           ("message", JVal.vstr s!"Batch insert failed: {d}")], 500⟩, db)) ∧
    (∀ (autoId : String) (dur : Int) (s : String) (storeErr : Nat → Option String)
       (cErr : Option String) (now : Nat) (db : DB) (dta : Dict) (mv : JVal)
       (verrs : List String),
      dlookup dta "metrics" = some mv → validate_batch mv = some (true, verrs) →
      uploadHealthMetrics (some (JVal.vobj dta)) autoId dur (some s) storeErr cErr now db =
        (⟨[("error", JVal.vstr "Database insertion failed"),
           ("message", JVal.vstr s)], 500⟩, db)) := by
  constructor
  · intro autoId dur storeErr d now db dta ms verrs hm hv
    rw [uploadHealthMetrics_upsert_path autoId dur storeErr (some d) now db dta ms verrs hm hv,
      insert_commit_fail]
  · intro autoId dur s storeErr cErr now db dta mv verrs hm hv
    exact uploadHealthMetrics_session_fail autoId dur s storeErr cErr now db dta mv verrs hm hv

/-- C6 witness: the amended theorem at concrete runs — a commit failure and
a session failure. -/
theorem claim_C6_witness :
    uploadHealthMetrics (some (JVal.vobj [("metrics", JVal.varr [m0])])) "auto" 7
        none (fun _ => none) (some "boom") 0 ⟨[], 1⟩ =
      (⟨[("error", JVal.vstr "Database insertion failed"),
         ("message", JVal.vstr "Batch insert failed: boom")], 500⟩, ⟨[], 1⟩) ∧
    uploadHealthMetrics (some (JVal.vobj [("metrics", JVal.varr [m0])])) "auto" 7
        (some "no session") (fun _ => none) none 0 ⟨[], 1⟩ =
      (⟨[("error", JVal.vstr "Database insertion failed"),
         ("message", JVal.vstr "no session")], 500⟩, ⟨[], 1⟩) :=
  ⟨claim_C6_error_responses.1 "auto" 7 (fun _ => none) "boom" 0 ⟨[], 1⟩
      [("metrics", JVal.varr [m0])] [m0] [] rfl rfl,
   claim_C6_error_responses.2 "auto" 7 "no session" (fun _ => none) none 0 ⟨[], 1⟩
      [("metrics", JVal.varr [m0])] (JVal.varr [m0]) [] rfl rfl⟩

/-- C7: a validation failure is answered 400 with the violation list capped
to the first 10; for a validated batch that reaches the upsert stage and
commits, the status is 200 exactly when no record failed, 207 exactly when
some record persisted and some failed, and 500 when zero records persisted;
a commit failure (zero records persisted) is also answered 500. -/
theorem claim_C7_status_codes :
    (∀ (autoId : String) (dur : Int) (sErr : Option String)
       (storeErr : Nat → Option String) (cErr : Option String) (now : Nat)
       (db : DB) (dta : Dict) (mv : JVal) (verrs : List String),
      dlookup dta "metrics" = some mv → validate_batch mv = some (false, verrs) →
      uploadHealthMetrics (some (JVal.vobj dta)) autoId dur sErr storeErr cErr now db =
        (⟨[("error", JVal.vstr "Validation failed"),
           ("details", JVal.varr ((verrs.take 10).map JVal.vstr))], 400⟩, db)) ∧
    (∀ (autoId : String) (dur : Int) (storeErr : Nat → Option String) (now : Nat)
       (db : DB) (dta : Dict) (ms : List JVal) (verrs : List String)
       (r : UpsertResult) (db2 : DB),
      dlookup dta "metrics" = some (JVal.varr ms) →
      validate_batch (JVal.varr ms) = some (true, verrs) →
      insert_or_update_metrics storeErr none now db ms = (Except.ok r, db2) →
      ((uploadHealthMetrics (some (JVal.vobj dta)) autoId dur none storeErr none
          now db).1.status = 200 ↔ r.failed = 0) ∧
      ((uploadHealthMetrics (some (JVal.vobj dta)) autoId dur none storeErr none
          now db).1.status = 207 ↔ (0 < r.inserted ∧ 0 < r.failed)) ∧
      (r.inserted = 0 →
        (uploadHealthMetrics (some (JVal.vobj dta)) autoId dur none storeErr none
          now db).1.status = 500)) ∧
    (∀ (autoId : String) (dur : Int) (storeErr : Nat → Option String) (d : String)
       (now : Nat) (db : DB) (dta : Dict) (ms : List JVal) (verrs : List String),
      dlookup dta "metrics" = some (JVal.varr ms) →
      validate_batch (JVal.varr ms) = some (true, verrs) →
      (uploadHealthMetrics (some (JVal.vobj dta)) autoId dur none storeErr (some d)
        now db).1.status = 500) := by
  refine ⟨?_, ?_, ?_⟩
  · intro autoId dur sErr storeErr cErr now db dta mv verrs hm hv
    exact uploadHealthMetrics_validation_fail autoId dur sErr storeErr cErr now db
      dta mv verrs hm hv
  · intro autoId dur storeErr now db dta ms verrs r db2 hm hv hins
    have hpath := uploadHealthMetrics_upsert_path autoId dur storeErr none now db
      dta ms verrs hm hv
    rw [hins] at hpath
    rw [hpath]
    obtain ⟨hsum, hsucc⟩ := insert_ok_facts hins
    have hne : ms ≠ [] := validate_batch_true_ne_nil hv
    have hlen : 1 ≤ ms.length := by
      cases ms with
      | nil => exact absurd rfl hne
      | cons a l => simp
    refine ⟨?_, ?_, ?_⟩
    · by_cases hf : r.failed = 0 <;> by_cases hi : 0 < r.inserted <;>
        simp [upstatus, hsucc, hf, hi]
    · by_cases hf : r.failed = 0 <;> by_cases hi : 0 < r.inserted <;>
        simp [upstatus, hsucc, hf, hi]
      omega
    · intro hz
      have hf : r.failed ≠ 0 := by omega
      simp [upstatus, hsucc, hf, hz]
  · intro autoId dur storeErr d now db dta ms verrs hm hv
    have hpath := uploadHealthMetrics_upsert_path autoId dur storeErr (some d) now db
      dta ms verrs hm hv
    rw [insert_commit_fail] at hpath
    rw [hpath]

/-- C7 witness: the status theorem at a concrete invalid batch (400) and a
concrete fully successful batch (200). -/
theorem claim_C7_witness :
    uploadHealthMetrics (some (JVal.vobj [("metrics", JVal.varr [JVal.vobj recBad])]))
        "auto" 7 none (fun _ => none) none 0 ⟨[], 1⟩ =
      (⟨[("error", JVal.vstr "Validation failed"),
         ("details", JVal.varr [JVal.vstr "Record 0: heartRate out of range (30-220 bpm)"])],
        400⟩, ⟨[], 1⟩) ∧
    (uploadHealthMetrics (some (JVal.vobj [("metrics", JVal.varr [m0])])) "auto" 7
        none (fun _ => none) none 0 ⟨[], 1⟩).1.status = 200 := by
  constructor
  · exact claim_C7_status_codes.1 "auto" 7 none (fun _ => none) none 0 ⟨[], 1⟩
      [("metrics", JVal.varr [JVal.vobj recBad])] (JVal.varr [JVal.vobj recBad])
      ["Record 0: heartRate out of range (30-220 bpm)"] rfl rfl
  · exact (claim_C7_status_codes.2.1 "auto" 7 (fun _ => none) 0 ⟨[], 1⟩
      [("metrics", JVal.varr [m0])] [m0] [] ⟨true, 1, 0, []⟩ ⟨[⟨1, hm0, 0⟩], 2⟩
      rfl rfl rfl).1.mpr rfl

end HealthHub
